import Mathlib

/-
  Verification development for the prompt analyzer/optimizer core
  (src/analyzer.js `PromptAnalyzer` and the optimizer file `PromptOptimizer`).

  Modelling conventions:
  * Text is a list of characters (`Str`); concrete inputs are written as
    Lean string literals converted with `str`.
  * JavaScript `Number` arithmetic is modelled exactly over `ℚ` / `ℤ` / `ℕ`.
    `Math.round x` is `⌊x + 1/2⌋` (JS rounds ties toward +∞), `Math.ceil`
    on nonnegative rationals `a/b` is `(a + b - 1) / b` in natural division.
    The double-precision rounding error of the source (at most a few ulp)
    is ignored; every fact proved here is robust to it.
  * JavaScript regular expressions are modelled by a small backtracking
    matcher (`RItem`, `matchLen`) with JS semantics: leftmost match,
    alternatives tried left to right, greedy/lazy quantifiers over
    single-character classes, word boundaries and negative lookahead.
    Scanning functions are fuelled; the fuel passed by the wrappers is far
    larger than the deepest possible backtracking chain for the (small,
    fixed) patterns of the source, so the `fuel = 0` branches are dead.
-/

set_option maxRecDepth 10000

abbrev Str := List Char

def str (s : String) : Str := s.data

/-- Whitespace characters relevant to JS `\s`, `trim` and split-on-whitespace
    (the source texts only ever contain ASCII whitespace). -/
def isWsChar (c : Char) : Bool := c = ' ' || c = '\t' || c = '\n' || c = '\r' || c = '\x0b' || c = '\x0c'

/-- JS regex `\w` / word characters for `\b` boundaries. -/
def isWordChar (c : Char) : Bool :=
  ('a' ≤ c && c ≤ 'z') || ('A' ≤ c && c ≤ 'Z') || ('0' ≤ c && c ≤ '9') || c = '_'

def isDigitChar (c : Char) : Bool := '0' ≤ c && c ≤ '9'

/-- ASCII lower-casing, as used by JS `toLowerCase` and the `i` regex flag
    on the ASCII texts handled here. -/
def lowerChar (c : Char) : Char :=
  if 'A' ≤ c && c ≤ 'Z' then Char.ofNat (c.toNat + 32) else c

def lowerStr (s : Str) : Str := s.map lowerChar

/-- Character comparison; under `ci` the pattern character is stored
    lower-case and the input character is lower-cased first. -/
def charEqCI (ci : Bool) (p c : Char) : Bool :=
  if ci then p = lowerChar c else p = c

/-- Does the literal `p` match a prefix of `s` (JS literal regex piece)? -/
def litHere (ci : Bool) : Str → Str → Bool
  | [], _ => true
  | _ :: _, [] => false
  | p :: ps, c :: cs => charEqCI ci p c && litHere ci ps cs

/-- JS `String.prototype.includes` (case-sensitive substring search). -/
def containsSub (hay needle : Str) : Bool :=
  match hay with
  | [] => litHere false needle []
  | _ :: rest => litHere false needle hay || containsSub rest needle

/-- JS `text.toLowerCase().includes(w)` for an ASCII needle. -/
def includesLower (hay : Str) (w : String) : Bool :=
  containsSub (lowerStr hay) (str w)

/-- JS `String.prototype.indexOf`, `none` for -1. -/
def idxOfSub (hay needle : Str) : Option Nat :=
  match hay with
  | [] => if litHere false needle [] then some 0 else none
  | _ :: rest =>
    if litHere false needle hay then some 0
    else (idxOfSub rest needle).map (· + 1)

/-- JS `String.prototype.trim`. -/
def jsTrim (s : Str) : Str :=
  ((s.dropWhile isWsChar).reverse.dropWhile isWsChar).reverse

/-- Split on single separator characters (runs of separators produce empty
    pieces, which every use in the source filters away afterwards, so this
    agrees with JS `split(/[.!?]+/)` / `split(/\s+/)` at every use site). -/
def jsSplitAux (p : Char → Bool) : Str → Str → List Str
  | [], acc => [acc.reverse]
  | c :: rest, acc =>
    if p c then acc.reverse :: jsSplitAux p rest []
    else jsSplitAux p rest (c :: acc)

def jsSplit (p : Char → Bool) (s : Str) : List Str := jsSplitAux p s []

/-- JS `text.trim().split(/\s+/)` — on an empty trim JS yields `[""]`. -/
def jsWords (t : Str) : List Str :=
  let tr := jsTrim t
  if tr.isEmpty then [[]]
  else (jsSplit isWsChar tr).filter (fun w => !w.isEmpty)

/-- Insert `ins` at character position `n` (JS `slice(0,n) + ins + slice(n)`). -/
def insertAt (s ins : Str) (n : Nat) : Str := s.take n ++ ins ++ s.drop n

/- ### A small JS-regex matcher -/

/-- The character classes appearing in the source's regexes. -/
inductive ClsKind where
  | dot       -- `.` without the `s` flag: anything but a line terminator
  | digit     -- `\d`
  | ws        -- `\s`
  | notGt     -- `[^>]`
  | notRBrack -- `[^\]]`
deriving DecidableEq, Repr

def clsMatch : ClsKind → Char → Bool
  | .dot, c => !(c = '\n' || c = '\r')
  | .digit, c => isDigitChar c
  | .ws, c => isWsChar c
  | .notGt, c => c ≠ '>'
  | .notRBrack, c => c ≠ ']'

/-- One piece of a regex: literal, ordered alternation of literals,
    quantified character class (`lo` to `hi` repetitions, `none` = ∞,
    `lzy` = lazy), word boundary, negative lookahead. -/
inductive RItem where
  | lit (cs : Str)
  | alts (cs : List Str)
  | cls (k : ClsKind) (lo : Nat) (hi : Option Nat) (lzy : Bool)
  | wordB
  | notAhead (items : List RItem)
deriving Repr

abbrev Pat := List RItem

/-- Maximal run of class characters at the front of `s`. -/
def runLen (k : ClsKind) : Str → Nat
  | [] => 0
  | c :: rest => if clsMatch k c then runLen k rest + 1 else 0

/-- Candidate consumption lengths for an item, in JS backtracking order. -/
def candList (ci : Bool) (it : RItem) (s : Str) : List Nat :=
  match it with
  | .lit cs => if litHere ci cs s then [cs.length] else []
  | .alts cs => cs.filterMap (fun c => if litHere ci c s then some c.length else none)
  | .cls k lo hi lzy =>
    let r := runLen k s
    let h := min r (hi.getD r)
    if h < lo then []
    else if lzy then (List.range (h - lo + 1)).map (lo + ·)
    else (List.range (h - lo + 1)).map (h - ·)
  | _ => []

def isWordOpt : Option Char → Bool
  | none => false
  | some c => isWordChar c

/-- Last character consumed after taking `n` characters of `s` (tracked so
    that a following `\b` can look back). -/
def prevAfter (prev : Option Char) (s : Str) (n : Nat) : Option Char :=
  if n = 0 then prev else ((s.take n).getLast?).getD ' ' |> some

/-- First successful application of `g` along a list (used to try match
    alternatives in JS's left-to-right backtracking order). -/
def firstSome (g : α → Option β) : List α → Option β
  | [] => none
  | a :: as =>
    match g a with
    | some b => some b
    | none => firstSome g as

/-- Length of the match of `items` at the start of `s` (`prev` = character
    before the current position), `none` if no match; JS backtracking
    order, so the returned length is the one JS would produce.  The fuel
    only has to dominate the pattern's nesting depth. -/
def matchLen (ci : Bool) : Nat → Pat → Option Char → Str → Option Nat
  | 0, _, _, _ => none
  | _ + 1, [], _, _ => some 0
  | f + 1, .wordB :: rest, prev, s =>
    if isWordOpt prev ≠ isWordOpt s.head? then matchLen ci f rest prev s else none
  | f + 1, .notAhead la :: rest, prev, s =>
    if (matchLen ci f la prev s).isSome then none else matchLen ci f rest prev s
  | f + 1, it :: rest, prev, s =>
    firstSome (fun n => (matchLen ci f rest (prevAfter prev s n) (s.drop n)).map (n + ·))
      (candList ci it s)

/-- The fuel of `matchLen` bounds only the nesting depth of its call tree:
    one level per pattern item (candidate lengths are tried iteratively by
    `firstSome`, not by nested recursion), plus the items of a lookahead.
    Every pattern of the source has at most eight items, so 64 is far more
    than enough and the `fuel = 0` branch is dead. -/
def mFuel : Nat := 64

def matchHere (ci : Bool) (p : Pat) (prev : Option Char) (s : Str) : Option Nat :=
  matchLen ci mFuel p prev s

/-- Number of global matches (JS `String.match(/…/g).length`), scanning
    left to right, restarting after each match (empty matches advance by
    one position, as JS does with `lastIndex`). -/
def scanCount (ci : Bool) (p : Pat) : Nat → Option Char → Str → Nat
  | 0, _, _ => 0
  | _ + 1, prev, [] => if (matchHere ci p prev []).isSome then 1 else 0
  | f + 1, prev, c :: rest =>
    match matchHere ci p prev (c :: rest) with
    | some 0 => 1 + scanCount ci p f (some c) rest
    | some (n + 1) => 1 + scanCount ci p f (prevAfter prev (c :: rest) (n + 1)) (rest.drop n)
    | none => scanCount ci p f (some c) rest

/-- Sum of the lengths of all global matches (used by the high-signal
    token counter, which adds up `match.length` over `String.match`). -/
def scanSumLens (ci : Bool) (p : Pat) : Nat → Option Char → Str → Nat
  | 0, _, _ => 0
  | _ + 1, _, [] => 0
  | f + 1, prev, c :: rest =>
    match matchHere ci p prev (c :: rest) with
    | some 0 => scanSumLens ci p f (some c) rest
    | some (n + 1) => (n + 1) + scanSumLens ci p f (prevAfter prev (c :: rest) (n + 1)) (rest.drop n)
    | none => scanSumLens ci p f (some c) rest

/-- JS `RegExp.test`. -/
def scanTest (ci : Bool) (p : Pat) : Nat → Option Char → Str → Bool
  | 0, _, _ => false
  | _ + 1, prev, [] => (matchHere ci p prev []).isSome
  | f + 1, prev, c :: rest =>
    if (matchHere ci p prev (c :: rest)).isSome then true
    else scanTest ci p f (some c) rest

/-- JS global `String.replace` with a constant replacement. -/
def scanReplace (ci : Bool) (p : Pat) (rep : Str) : Nat → Option Char → Str → Str
  | 0, _, s => s
  | _ + 1, prev, [] => if (matchHere ci p prev []).isSome then rep else []
  | f + 1, prev, c :: rest =>
    match matchHere ci p prev (c :: rest) with
    | some 0 => rep ++ c :: scanReplace ci p rep f (some c) rest
    | some (n + 1) =>
      rep ++ scanReplace ci p rep f (prevAfter prev (c :: rest) (n + 1)) (rest.drop n)
    | none => c :: scanReplace ci p rep f (some c) rest

/-- JS global `String.replace` with a function of the matched substring. -/
def scanReplaceFn (ci : Bool) (p : Pat) (g : Str → Str) : Nat → Option Char → Str → Str
  | 0, _, s => s
  | _ + 1, prev, [] => if (matchHere ci p prev []).isSome then g [] else []
  | f + 1, prev, c :: rest =>
    match matchHere ci p prev (c :: rest) with
    | some 0 => g [] ++ c :: scanReplaceFn ci p g f (some c) rest
    | some (n + 1) =>
      g ((c :: rest).take (n + 1)) ++
        scanReplaceFn ci p g f (prevAfter prev (c :: rest) (n + 1)) (rest.drop n)
    | none => c :: scanReplaceFn ci p g f (some c) rest

def reCount (ci : Bool) (p : Pat) (s : Str) : Nat := scanCount ci p (s.length + 1) none s

def reSumLens (ci : Bool) (p : Pat) (s : Str) : Nat := scanSumLens ci p (s.length + 1) none s

def reTest (ci : Bool) (p : Pat) (s : Str) : Bool := scanTest ci p (s.length + 1) none s

def reReplace (ci : Bool) (p : Pat) (rep : Str) (s : Str) : Str :=
  scanReplace ci p rep (s.length + 1) none s

def reReplaceFn (ci : Bool) (p : Pat) (g : Str → Str) (s : Str) : Str :=
  scanReplaceFn ci p g (s.length + 1) none s


/- ### Analyzer (src/analyzer.js `PromptAnalyzer`) -/

inductive Model where
  | claude | gpt | gemini
deriving DecidableEq, Repr

inductive Altitude where
  | tooLow | tooHigh | justRight | unknown
deriving DecidableEq, Repr

/-- JS `Math.round` (ties toward +∞) on ℚ. -/
def jsRound (q : ℚ) : ℤ := ⌊q + 1/2⌋

/-- JS `Math.round (num / den)` for naturals, `den > 0`, as pure natural
    arithmetic: `⌊num/den + 1/2⌋ = (2*num + den) / (2*den)`. -/
def jsRoundPosRat (num den : Nat) : Nat := (2 * num + den) / (2 * den)

/-- `countTokens` (analyzer.js 30-40): word count via `trim().split(/\s+/)`,
    `byChars = ceil(len/3.5) = ceil(2*len/7)`, `byWords = ceil(words/0.75)
    = ceil(4*words/3)`, result `round((byChars+byWords)/2)`. -/
def countTokens (t : Str) : Nat :=
  let words := (jsWords t).length
  let byChars := (2 * t.length + 6) / 7
  let byWords := (4 * words + 2) / 3
  (byChars + byWords + 1) / 2

/-- `hasRole` (analyzer.js 71-79). -/
def hasRole (t : Str) : Bool :=
  reTest true [.lit (str "[role]")] t ||
  reTest true [.lit (str "you are "), .alts [str "a", str "an"], .lit (str " "),
    .cls .dot 3 (some 50) false, .lit (str " "),
    .alts [str "expert", str "specialist", str "assistant", str "professional"]] t ||
  reTest true [.lit (str "act as "), .alts [str "a", str "an"]] t ||
  reTest true [.lit (str "your role is")] t

/-- `hasTone` (analyzer.js 81-85). -/
def hasTone (t : Str) : Bool :=
  reTest true [.alts [str "tone", str "style", str "voice"], .cls .dot 0 (some 20) false,
    .alts [str "professional", str "casual", str "formal", str "friendly", str "technical",
      str "conversational", str "academic", str "creative"]] t

/-- `hasBackground` (analyzer.js 87-96). -/
def hasBackground (t : Str) : Bool :=
  reTest true [.lit (str "[background]")] t ||
  reTest true [.lit (str "[context]")] t ||
  reTest true [.lit (str "background:")] t ||
  reTest true [.lit (str "context:")] t ||
  reTest true [.lit (str "given that")] t

/-- `hasTask` (analyzer.js 98-102): `\b(verb)\b.{5,}`. -/
def hasTask (t : Str) : Bool :=
  reTest true [.wordB, .alts [str "write", str "create", str "analyze", str "generate",
    str "explain", str "summarize", str "evaluate", str "design", str "build", str "help"],
    .wordB, .cls .dot 5 none false] t

/-- `hasExamples` (analyzer.js 104-113). -/
def hasExamples (t : Str) : Bool :=
  reTest true [.lit (str "[example]")] t ||
  reTest true [.lit (str "for example")] t ||
  reTest true [.lit (str "e.g.")] t ||
  reTest true [.lit (str "such as:")] t ||
  reTest true [.lit (str "example:")] t

/-- `hasChainOfThought` (analyzer.js 115-124). -/
def hasChainOfThought (t : Str) : Bool :=
  reTest true [.lit (str "think step"), .cls .dot 0 (some 10) false, .lit (str "step")] t ||
  reTest true [.lit (str "thinking")] t ||
  reTest true [.lit (str "reason through")] t ||
  reTest true [.lit (str "analyze"), .cls .dot 0 (some 10) false, .lit (str "before")] t ||
  reTest true [.lit (str "first"), .cls .dot 0 none false, .lit (str "then")] t

/-- `hasOutputFormat` (analyzer.js 126-135). -/
def hasOutputFormat (t : Str) : Bool :=
  reTest true [.lit (str "[output]")] t ||
  reTest true [.lit (str "[format]")] t ||
  reTest true [.lit (str "output"), .cls .dot 0 (some 20) false,
    .alts [str "format", str "should be", str "must be"]] t ||
  reTest true [.lit (str "format"), .cls .dot 0 (some 20) false, .lit (str ":")] t ||
  reTest true [.alts [str "json", str "markdown", str "html", str "csv"]] t

/-- `hasConstraints` (analyzer.js 137-146). -/
def hasConstraints (t : Str) : Bool :=
  reTest true [.lit (str "[constraints]")] t ||
  reTest true [.lit (str "[requirements]")] t ||
  reTest true [.lit (str "must "), .alts [str "not", str "never", str "always"]] t ||
  reTest true [.lit (str "should "), .alts [str "not", str "never", str "always"]] t ||
  reTest true [.lit (str "do not")] t

/-- `hasPrefill` (analyzer.js 148-152): case-sensitive `includes`. -/
def hasPrefill (t : Str) : Bool :=
  containsSub t (str "[OUTPUT]:") || containsSub t (str "Begin with:")

/-- `hasXMLStructure` (analyzer.js 154-156): `/<[^>]+>/`. -/
def hasXMLStructure (t : Str) : Bool :=
  reTest false [.lit (str "<"), .cls .notGt 1 none false, .lit (str ">")] t

structure Components where
  role : Bool
  tone : Bool
  background : Bool
  task : Bool
  examples : Bool
  chainOfThought : Bool
  outputFormat : Bool
  constraints : Bool
  prefill : Bool
  xmlStructure : Bool
  presentCount : Nat
  missingCount : Nat
  score : ℚ
  missing : List String
deriving Repr

def boolNat (b : Bool) : Nat := if b then 1 else 0

/-- `listMissingComponents` (analyzer.js 158-180), in object-key order. -/
def listMissing (role tone background task examples chainOfThought outputFormat
    constraints prefill xmlStructure : Bool) : List String :=
  (if role then [] else ["Role/Persona"]) ++
  (if tone then [] else ["Tone Context"]) ++
  (if background then [] else ["Background Data"]) ++
  (if task then [] else ["Task Description"]) ++
  (if examples then [] else ["Examples"]) ++
  (if chainOfThought then [] else ["Chain-of-Thought"]) ++
  (if outputFormat then [] else ["Output Format"]) ++
  (if constraints then [] else ["Constraints"]) ++
  (if prefill then [] else ["Response Prefill"]) ++
  (if xmlStructure then [] else ["XML Structure"])

/-- `analyzeComponents` (analyzer.js 45-69). -/
def analyzeComponents (t : Str) : Components :=
  let role := hasRole t
  let tone := hasTone t
  let background := hasBackground t
  let task := hasTask t
  let examples := hasExamples t
  let chainOfThought := hasChainOfThought t
  let outputFormat := hasOutputFormat t
  let constraints := hasConstraints t
  let prefill := hasPrefill t
  let xmlStructure := hasXMLStructure t
  let present := boolNat role + boolNat tone + boolNat background + boolNat task +
    boolNat examples + boolNat chainOfThought + boolNat outputFormat +
    boolNat constraints + boolNat prefill + boolNat xmlStructure
  { role := role, tone := tone, background := background, task := task,
    examples := examples, chainOfThought := chainOfThought, outputFormat := outputFormat,
    constraints := constraints, prefill := prefill, xmlStructure := xmlStructure,
    presentCount := present, missingCount := 10 - present,
    score := ((present : ℚ) / 10) * 100,
    missing := listMissing role tone background task examples chainOfThought
      outputFormat constraints prefill xmlStructure }

/-- The five high-signal pattern families of `countHighSignalTokens`
    (analyzer.js 208-227); their global matches' lengths are summed. -/
def highSignalChars (t : Str) : Nat :=
  reSumLens true [.alts [str "must", str "never", str "always", str "required",
    str "specifically", str "exactly"]] t +
  reSumLens true [.alts [str "format:", str "output:", str "structure:", str "style:"]] t +
  reSumLens true [.alts [str "example:", str "e.g.", str "for instance:"]] t +
  reSumLens false [.lit (str "<"), .cls .notGt 1 none false, .lit (str ">")] t +
  reSumLens false [.lit (str "["), .cls .notRBrack 1 none false, .lit (str "]")] t

/-- `countHighSignalTokens`: `ceil(chars/3.5)`. -/
def countHighSignalTokens (t : Str) : Nat := (2 * highSignalChars t + 6) / 7

/-- `rateEfficiency` (analyzer.js 229-234); applied to the unrounded ratio. -/
def rateEfficiency (e : ℚ) : String :=
  if e ≥ 85 then "excellent" else if e ≥ 70 then "good" else if e ≥ 50 then "fair" else "poor"

structure TokenEfficiency where
  total : Nat
  useful : Nat
  efficiency : Nat
  rating : String
deriving Repr

/-- `calculateTokenEfficiency` (analyzer.js 195-206): the stored
    `efficiency` is `Math.round(useful/total*100)` when `total > 0`, else 0;
    the rating is computed from the unrounded ratio. -/
def calculateTokenEfficiency (t : Str) : TokenEfficiency :=
  let total := countTokens t
  let useful := countHighSignalTokens t
  { total := total, useful := useful,
    efficiency := if 0 < total then jsRoundPosRat (100 * useful) total else 0,
    rating := rateEfficiency (if 0 < total then (useful : ℚ) / total * 100 else 0) }

structure SignalDensity where
  density : ℤ
  highValueCount : Nat
  fillerCount : Nat
  rating : String
deriving Repr

def highValueStarts : List String :=
  ["must", "never", "always", "required", "specific", "exact", "only", "format",
   "output", "constraint"]

def fillerStarts : List String :=
  ["very", "really", "quite", "basically", "actually", "literally", "perhaps",
   "maybe", "possibly"]

/-- `/^(w1|w2|…)/i.test(word)`. -/
def wordStartsWithAny (ws : List String) (w : Str) : Bool :=
  ws.any (fun p => litHere true (str p) w)

/-- `rateDensity` (analyzer.js 261-265); applied to the unrounded density. -/
def rateDensity (d : ℚ) : String :=
  if d ≥ 80 then "high" else if d ≥ 60 then "medium" else "low"

/-- `calculateSignalDensity` (analyzer.js 236-259). -/
def calculateSignalDensity (t : Str) : SignalDensity :=
  let words := jsWords t
  let totalWords := words.length
  let highValue := (words.filter (wordStartsWithAny highValueStarts)).length
  let filler := (words.filter (wordStartsWithAny fillerStarts)).length
  let density : ℚ :=
    if 0 < totalWords then ((highValue : ℚ) - filler) / totalWords * 100 + 50 else 50
  { density := max 0 (min 100 (jsRound density)),
    highValueCount := highValue, fillerCount := filler,
    rating := rateDensity density }

def lowMarkerCount (t : Str) : Nat :=
  reCount true [.lit (str "if "), .cls .dot 5 (some 30) false, .lit (str " then")] t +
  reCount true [.lit (str "when "), .cls .dot 5 (some 30) false, .lit (str " do")] t +
  reCount true [.lit (str "step "), .cls .digit 1 none false, .lit (str ":")] t +
  reCount true [.lit (str "first "), .cls .dot 5 (some 20) false, .lit (str " second "),
    .cls .dot 5 (some 20) false, .lit (str " third")] t

def highMarkerCount (t : Str) : Nat :=
  reCount true [.lit (str "be helpful")] t +
  reCount true [.lit (str "do your best")] t +
  reCount true [.lit (str "be creative")] t +
  reCount true [.lit (str "be good")] t +
  reCount true [.lit (str "be professional"),
    .notAhead [.lit (str " "), .cls .dot 5 none false]] t

def goodMarkerCount (t : Str) : Nat :=
  reCount true [.lit (str "focus on")] t +
  reCount true [.lit (str "prioritize")] t +
  reCount true [.lit (str "ensure that")] t +
  reCount true [.lit (str "when "),
    .alts [str "analyzing", str "writing", str "creating", str "reviewing"]] t +
  reCount true [.lit (str "must "),
    .alts [str "include", str "contain", str "have", str "follow"]] t

/-- `detectAltitude` (analyzer.js 267-317). -/
def detectAltitude (t : Str) : Altitude :=
  let lowScore := lowMarkerCount t
  let highScore := highMarkerCount t
  let goodScore := goodMarkerCount t
  if 2 < lowScore then .tooLow
  else if 2 < highScore ∧ goodScore < 2 then .tooHigh
  else .justRight

structure Redundancy where
  score : Nat
  level : String
deriving Repr

/-- Sliding 3-word windows of a sentence's words, joined with a space
    (analyzer.js 327-334). -/
def phraseWindows : List Str → List Str
  | a :: b :: c :: rest => (a ++ ' ' :: b ++ ' ' :: c) :: phraseWindows (b :: c :: rest)
  | _ => []

def redundancyScan : List Str → List Str → Nat → (List Str × Nat)
  | [], seen, cnt => (seen, cnt)
  | ph :: rest, seen, cnt =>
    if seen.contains ph then redundancyScan rest seen (cnt + 1)
    else redundancyScan rest (ph :: seen) cnt

def sentenceWordsLower (s : Str) : List Str :=
  (jsSplit isWsChar (lowerStr (jsTrim s))).filter (fun w => !w.isEmpty)

/-- `detectRedundancy` (analyzer.js 319-341): the seen-phrase set is global
    across all sentences of the text. -/
def detectRedundancy (t : Str) : Redundancy :=
  let sentences := (jsSplit (fun c => c = '.' || c = '!' || c = '?') t).filter
    (fun s => !(jsTrim s).isEmpty)
  let phrases := (sentences.map (fun s => phraseWindows (sentenceWordsLower s))).flatten
  let cnt := (redundancyScan phrases [] 0).2
  { score := cnt, level := if 3 < cnt then "high" else if 1 < cnt then "medium" else "low" }

structure ContextEngineering where
  tokenEfficiency : TokenEfficiency
  signalDensity : SignalDensity
  altitude : Altitude
  redundancy : Redundancy
deriving Repr

/-- `analyzeContextEngineering` (analyzer.js 186-193). -/
def analyzeContextEngineering (t : Str) : ContextEngineering :=
  { tokenEfficiency := calculateTokenEfficiency t,
    signalDensity := calculateSignalDensity t,
    altitude := detectAltitude t,
    redundancy := detectRedundancy t }

def isCreativeTask (t : Str) : Bool :=
  ["write", "create", "design", "imagine", "story", "poem", "article", "blog"].any
    (includesLower t)

def isAnalyticalTask (t : Str) : Bool :=
  ["analyze", "evaluate", "assess", "compare", "review", "examine"].any (includesLower t)

/-- `hasExplicitRequest` (analyzer.js 443-452). -/
def hasExplicitRequest (t : Str) : Bool :=
  reTest true [.lit (str "go beyond")] t ||
  reTest true [.lit (str "comprehensive")] t ||
  reTest true [.lit (str "fully"), .cls .dot 0 (some 10) false, .lit (str "featured")] t ||
  reTest true [.lit (str "extensive")] t ||
  reTest true [.lit (str "thorough")] t

structure FitReport where
  compatibility : ℤ
  strengths : List String
  issues : List String
  model : String
deriving DecidableEq, Repr

/-- `analyzeClaudeFit` (analyzer.js 357-387). -/
def analyzeClaudeFit (t : Str) : FitReport :=
  let issues :=
    (if isCreativeTask t && !hasExplicitRequest t then
      ["Add explicit \"go beyond basics\" request for creative tasks"] else []) ++
    (if 200 < t.length && !includesLower t "because" then
      ["Add motivation/context for better Claude 4.x performance"] else []) ++
    (if isAnalyticalTask t && !reTest true [.lit (str "<thinking>")] t then
      ["Consider adding <thinking> block for analytical tasks"] else [])
  let strengths := if hasExamples t then ["Has examples (Claude 4.x pays close attention)"] else []
  { compatibility := max 0 (100 - (issues.length : ℤ) * 15),
    strengths := strengths, issues := issues, model := "Claude 4.5" }

/-- `analyzeGPTFit` (analyzer.js 389-409). -/
def analyzeGPTFit (t : Str) : FitReport :=
  let issues :=
    (if !hasChainOfThought t then ["Add step-by-step reasoning request"] else []) ++
    (if !hasOutputFormat t then ["GPT performs better with explicit format specification"] else [])
  { compatibility := max 0 (100 - (issues.length : ℤ) * 15),
    strengths := [], issues := issues, model := "GPT-5" }

/-- `analyzeGeminiFit` (analyzer.js 411-431). -/
def analyzeGeminiFit (t : Str) : FitReport :=
  let issues :=
    (if !includesLower t "context" && t.length < 100 then ["Add context/grounding for Gemini"] else []) ++
    (if !hasConstraints t then ["Gemini benefits from explicit boundaries"] else [])
  { compatibility := max 0 (100 - (issues.length : ℤ) * 15),
    strengths := [], issues := issues, model := "Gemini 3" }

/-- `analyzeModelFit` (analyzer.js 346-355) for the three known keys
    (string-keyed dispatch is modelled separately below). -/
def analyzeModelFit (t : Str) (m : Model) : FitReport :=
  match m with
  | .claude => analyzeClaudeFit t
  | .gpt => analyzeGPTFit t
  | .gemini => analyzeGeminiFit t

structure ScoreRating where
  label : String
  color : String
deriving DecidableEq, Repr

/-- `getScoreRating` (analyzer.js 495-501); applied to the unrounded score. -/
def getScoreRating (s : ℚ) : ScoreRating :=
  if s ≥ 9 then ⟨"Excellent", "#10b981"⟩
  else if s ≥ 15/2 then ⟨"Very Good", "#3b82f6"⟩
  else if s ≥ 6 then ⟨"Good", "#8b5cf6"⟩
  else if s ≥ 4 then ⟨"Fair", "#f59e0b"⟩
  else ⟨"Needs Work", "#ef4444"⟩

structure Breakdown where
  components : ℚ
  efficiency : ℚ
  altitude : ℚ
  modelFit : ℚ
deriving Repr

structure OverallScore where
  score : ℚ
  maxScore : ℚ
  rating : ScoreRating
  breakdown : Breakdown
deriving Repr

/-- The altitude sub-score of `calculateOverallScore` (analyzer.js 465-466):
    `just-right ? 10 : too-high ? 5 : 3`. -/
def altitudeScoreOf (a : Altitude) : ℚ :=
  match a with
  | .justRight => 10
  | .tooHigh => 5
  | _ => 3

/-- `calculateOverallScore` (analyzer.js 457-493); weights 0.30/0.25/0.25/0.20. -/
def calculateOverallScore (t : Str) (m : Model) : OverallScore :=
  let components := analyzeComponents t
  let contextEng := analyzeContextEngineering t
  let modelFit := analyzeModelFit t m
  let componentScore : ℚ := components.score / 10
  let efficiencyScore : ℚ := (contextEng.tokenEfficiency.efficiency : ℚ) / 10
  let altitudeScore : ℚ := altitudeScoreOf contextEng.altitude
  let modelScore : ℚ := (modelFit.compatibility : ℚ) / 10
  let weighted : ℚ := componentScore * (3/10) + efficiencyScore * (1/4) +
    altitudeScore * (1/4) + modelScore * (1/5)
  { score := (jsRound (weighted * 10) : ℚ) / 10,
    maxScore := 10,
    rating := getScoreRating weighted,
    breakdown :=
      { components := componentScore, efficiency := efficiencyScore,
        altitude := altitudeScore, modelFit := modelScore } }

structure AnalysisReport where
  tokenCount : Nat
  components : Components
  contextEngineering : ContextEngineering
  modelFit : FitReport
  overallScore : OverallScore
deriving Repr

/-- `getEmptyAnalysis` (analyzer.js 506-533).  The source's empty
    components object carries no boolean flags (reading one yields
    `undefined`, which is falsy at every use site), so the flags are
    modelled as `false`; likewise the absent `breakdown`/`model`/count
    fields are modelled by zero/empty defaults. -/
def getEmptyAnalysis : AnalysisReport :=
  { tokenCount := 0,
    components :=
      { role := false, tone := false, background := false, task := false,
        examples := false, chainOfThought := false, outputFormat := false,
        constraints := false, prefill := false, xmlStructure := false,
        presentCount := 0, missingCount := 10, score := 0, missing := [] },
    contextEngineering := {
      tokenEfficiency := { total := 0, useful := 0, efficiency := 0, rating := "poor" },
      signalDensity := { density := 0, highValueCount := 0, fillerCount := 0, rating := "low" },
      altitude := .unknown,
      redundancy := { score := 0, level := "low" } },
    modelFit := { compatibility := 0, strengths := [], issues := [], model := "" },
    overallScore :=
      { score := 0, maxScore := 10,
        rating := ⟨"Waiting", "#6b7280"⟩,
        breakdown := { components := 0, efficiency := 0, altitude := 0, modelFit := 0 } } }

/-- `analyze` (analyzer.js 12-24): empty/whitespace-only input short-circuits
    to the canonical empty report. -/
def analyze (t : Str) (m : Model) : AnalysisReport :=
  if (jsTrim t).isEmpty then getEmptyAnalysis
  else
    { tokenCount := countTokens t,
      components := analyzeComponents t,
      contextEngineering := analyzeContextEngineering t,
      modelFit := analyzeModelFit t m,
      overallScore := calculateOverallScore t m }


/- ### Optimizer (`PromptOptimizer`) -/

structure Technique where
  name : String
  description : String
  impact : String
deriving DecidableEq, Repr

inductive Level where
  | quick | standard | advanced
deriving DecidableEq, Repr

/-- The recognized values of `options.format` (optimizer 130-137). -/
inductive Format where
  | standard | structured | article | bullets | data
deriving DecidableEq, Repr

/-- The option fields read by the transformation rules; `none` format means
    the field is absent and `this.options.format || 'standard'` applies. -/
structure Options where
  format : Option Format
  concise : Bool
  noPreamble : Bool
deriving DecidableEq, Repr

def defaultOptions : Options := ⟨none, false, false⟩

def sentSepChar (c : Char) : Bool := c = '.' || c = '!' || c = '?'

/-- The sentence list of `removeRedundancy` (optimizer 59):
    `text.split(/[.!?]+/).map(s => s.trim()).filter(s => s)`. -/
def sentencePieces (t : Str) : List Str :=
  ((jsSplit sentSepChar t).map jsTrim).filter (fun s => !s.isEmpty)

/-- The `seen`-set deduplication of `removeRedundancy` (optimizer 60-69):
    keeps the first occurrence of each case-insensitive sentence, counts
    the removed ones. -/
def dedupSentences : List Str → List Str → (List Str × Nat)
  | [], _ => ([], 0)
  | s :: rest, seen =>
    if lowerStr s ∈ seen then
      let (u, r) := dedupSentences rest seen
      (u, r + 1)
    else
      let (u, r) := dedupSentences rest (lowerStr s :: seen)
      (s :: u, r)

/-- JS `unique.join('. ')`. -/
def joinDotSpace : List Str → Str
  | [] => []
  | [x] => x
  | x :: xs => x ++ '.' :: ' ' :: joinDotSpace xs

/-- The filler-word regex `/\b(very|…)\b\s*/gi` (optimizer 81). -/
def fillerPat : Pat :=
  [.wordB, .alts [str "very", str "really", str "quite", str "basically", str "actually",
    str "literally", str "perhaps", str "maybe", str "possibly"], .wordB,
   .cls .ws 0 none false]

/-- The sentence-level half of `removeRedundancy` (optimizer 58-78): if any
    duplicate was removed, the kept sentences are re-joined with `'. '` and a
    final `'.'`; otherwise the text is left untouched. -/
def dedupedText (t : Str) : Str :=
  if 0 < (dedupSentences (sentencePieces t) []).2 then
    joinDotSpace (dedupSentences (sentencePieces t) []).1 ++ ['.']
  else t

/-- `removeRedundancy` (optimizer 54-93). -/
def removeRedundancy (t : Str) : Str × List Technique :=
  let removed := (dedupSentences (sentencePieces t) []).2
  let r1 := dedupedText t
  let fillerCount := reCount true fillerPat r1
  let r2 := if 0 < fillerCount then reReplace true fillerPat [] r1 else r1
  (r2,
    (if 0 < removed then
      [⟨"Redundancy Removal", "Removed " ++ toString removed ++ " repeated sentence(s)",
        "Token efficiency improved"⟩] else []) ++
    (if 0 < fillerCount then
      [⟨"Filler Word Removal", "Removed " ++ toString fillerCount ++ " filler word(s)",
        "Signal density increased"⟩] else []))

/-- `improveClarity` (optimizer 98-105): `replace(/\s+and\s+/g, ' and ')`. -/
def improveClarity (t : Str) : Str :=
  reReplace false [.cls .ws 1 none false, .lit (str "and"), .cls .ws 1 none false]
    (str " and ") t

/-- `inferRole` (optimizer 176-193). -/
def inferRole (t : Str) : Str :=
  if includesLower t "code" || includesLower t "program" then
    str "You are a Senior Software Engineer with expertise in writing clean, production-ready code"
  else if includesLower t "write" || includesLower t "article" then
    str "You are an expert writer skilled at crafting clear, engaging content"
  else if includesLower t "analyze" || includesLower t "data" then
    str "You are a Data Analyst with expertise in extracting insights from information"
  else if includesLower t "design" then
    str "You are a UX/UI Designer with expertise in user-centered design"
  else
    str "You are an expert assistant focused on delivering high-quality, accurate responses"

/-- The `formatMap` of `addFrameworkStructure` (optimizer 131-137). -/
def formatDesc : Format → Str
  | .standard => str "Markdown format with clear structure"
  | .structured => str "Highly structured with sections and subsections"
  | .article => str "Article-style prose with paragraphs"
  | .bullets => str "Concise bullet points"
  | .data => str "Valid JSON format"

def apoChar : Char := Char.ofNat 39

/-- The `[NEVER]` section body (optimizer 159-161). -/
def neverSection : Str :=
  str "\n\n[NEVER]:\n- Don" ++ [apoChar] ++ str "t be vague or use filler language\n- Don" ++
    [apoChar] ++ str "t make assumptions without stating them\n"

/-- `addFrameworkStructure` (optimizer 110-174); the component flags and the
    altitude are read from the analysis report captured at the start of the
    `optimize` call (`this.analysis`), which the caller passes in here. -/
def addFrameworkStructure (roleF taskF outputFormatF constraintsF : Bool) (alt : Altitude)
    (opts : Options) (t : Str) : Str × List Technique :=
  let (r1, a1) :=
    if !roleF then (str "[ROLE]: " ++ inferRole t ++ str "\n\n" ++ t, ["Role"]) else (t, [])
  let (r2, a2) :=
    if !taskF && !litHere false (str "[TASK]") r1 then (str "[TASK]: " ++ r1, ["Task Header"])
    else (r1, [])
  let (r3, a3) :=
    if !outputFormatF then
      (r2 ++ str "\n\n[OUTPUT FORMAT]: " ++ formatDesc (opts.format.getD .standard) ++ str ".",
        ["Output Format"])
    else (r2, [])
  let (r4, a4) :=
    if !constraintsF then
      (r3 ++ str "\n\n[CONSTRAINTS]:\n" ++
        (if opts.concise then str "- Be concise and direct\n" else []) ++
        (if opts.noPreamble then str "- No preamble, go straight to the answer\n" else []) ++
        str "- Ensure accuracy and relevance\n", ["Constraints"])
    else (r3, [])
  let (r5, a5) :=
    if alt = .tooHigh then (r4 ++ neverSection, ["Negative Constraints"]) else (r4, [])
  let added := a1 ++ a2 ++ a3 ++ a4 ++ a5
  (r5,
    if added.isEmpty then []
    else [⟨"Framework Structure", "Added: " ++ String.intercalate ", " added,
      "Follows Anthropic 10-component framework"⟩])

/-- The replacement for `/step \d+:/gi` in `raiseAltitude` (optimizer 214) is
    the source file's mojibake bullet, the three characters U+00E2 U+20AC U+00A2. -/
def mojibakeBullet : Str := [Char.ofNat 226, Char.ofNat 8364, Char.ofNat 162]

/-- `raiseAltitude` (optimizer 210-226); `/first.*?then.*?finally/gi` has
    lazy quantifiers, and its function replacement strips the three keywords
    and prefixes the principle phrase. -/
def raiseAltitude (t : Str) : Str × List Technique :=
  let r1 := reReplace true [.lit (str "step "), .cls .digit 1 none false, .lit (str ":")]
    mojibakeBullet t
  let r2 := reReplaceFn true [.lit (str "first"), .cls .dot 0 none true, .lit (str "then"),
      .cls .dot 0 none true, .lit (str "finally")]
    (fun m => str "Follow a logical progression: " ++
      jsTrim (reReplace true [.alts [str "first", str "then", str "finally"]] [] m)) r1
  (r2, [⟨"Altitude Correction", "Raised from too-low (hardcoded) to principle-based",
    "More flexible and generalizable"⟩])

/-- `lowerAltitude` (optimizer 228-244). -/
def lowerAltitude (t : Str) : Str × List Technique :=
  let r1 := reReplace true [.lit (str "be professional")]
    (str "use formal business language with proper structure") t
  let r2 := reReplace true [.lit (str "be helpful")]
    (str "provide clear, actionable guidance with specific examples") r1
  let r3 := reReplace true [.lit (str "be creative")]
    (str "explore unconventional approaches and present multiple options") r2
  let r4 := reReplace true [.lit (str "do your best")]
    (str "prioritize accuracy and completeness") r3
  (r4, [⟨"Altitude Correction", "Lowered from too-high (vague) to specific guidance",
    "Clearer expectations and better results"⟩])

/-- `correctAltitude` (optimizer 198-208), keyed off the original report's
    altitude. -/
def correctAltitude (alt : Altitude) (t : Str) : Str × List Technique :=
  match alt with
  | .tooLow => raiseAltitude t
  | .tooHigh => lowerAltitude t
  | _ => (t, [])

def motivationNote : Str :=
  str "\n\nNote: These constraints are important because they ensure the output meets specific quality and usability standards.\n"

/-- `applyClaudeRules` (optimizer 260-296); all three checks inspect the
    `text` parameter (the pipeline text at entry of this stage). -/
def applyClaudeRules (t : Str) : Str × List Technique :=
  let (r1, a1) :=
    if isCreativeTask t && !hasExplicitRequest t then
      (t ++ str "\n\nGo beyond the basics. Include as many relevant details and nuances as possible to create a comprehensive, fully-featured response.",
        ["Explicit \"go beyond\" request"])
    else (t, [])
  let (r2, a2) :=
    if isAnalyticalTask t && !reTest true [.lit (str "<thinking>")] t then
      (r1 ++ str "\n\nBefore providing your final answer, analyze the problem in a <thinking> block, considering different approaches and potential issues.",
        ["Thinking block for analysis"])
    else (r1, [])
  let (r3, a3) :=
    if decide (200 < t.length) && !includesLower t "because" && !includesLower t "this is important" then
      match idxOfSub r2 (str "[CONSTRAINTS]") with
      | some idx => (insertAt r2 motivationNote (idx + 13), ["Motivation context"])
      | none => (r2, [])
    else (r2, [])
  let applied := a1 ++ a2 ++ a3
  (r3,
    if applied.isEmpty then []
    else [⟨"Claude 4.x Optimization", String.intercalate ", " applied,
      "Optimized for Claude 4.5 Opus/Sonnet"⟩])

/-- `applyGPTRules` (optimizer 298-317). -/
def applyGPTRules (t : Str) : Str × List Technique :=
  if !hasChainOfThought t then
    (t ++ str "\n\nThink through this step-by-step before providing your final answer.",
      [⟨"GPT-5 Optimization", "Step-by-step reasoning", "Optimized for GPT-5"⟩])
  else (t, [])

/-- `applyGeminiRules` (optimizer 319-338). -/
def applyGeminiRules (t : Str) : Str × List Technique :=
  if !includesLower t "context" && decide (t.length < 100) then
    (str "[CONTEXT]: Provide a response based on your training data and general knowledge.\n\n" ++ t,
      [⟨"Gemini 3 Optimization", "Grounding context", "Optimized for Gemini 3"⟩])
  else (t, [])

/-- `applyModelSpecificRules` (optimizer 249-258) for the three known keys. -/
def applyModelSpecificRules (m : Model) (t : Str) : Str × List Technique :=
  match m with
  | .claude => applyClaudeRules t
  | .gpt => applyGPTRules t
  | .gemini => applyGeminiRules t

/-- `addExamples` (optimizer 343-364); the examples flag comes from the
    original report, the format/example checks inspect the current text. -/
def addExamples (examplesF : Bool) (t : Str) : Str × List Technique :=
  if examplesF then (t, [])
  else if includesLower t "format" && !includesLower t "example" then
    (t ++ str "\n\n[EXAMPLE]:\nFor reference, structure your output similar to:\n- Clear introduction\n- Main content organized logically\n- Concise conclusion",
      [⟨"Examples Added", "Added structural example", "Clarifies expected format"⟩])
  else (t, [])

/-- The firing condition of `addChainOfThought` (optimizer 370-377): no
    chain-of-thought marker in the text it receives, and the text is
    analytical or longer than 300 characters. -/
def cotFires (s : Str) : Bool :=
  !hasChainOfThought s && (isAnalyticalTask s || decide (300 < s.length))

/-- `addChainOfThought` (optimizer 369-387). -/
def addChainOfThought (t : Str) : Str × List Technique :=
  if cotFires t then
    (t ++ str "\n\nThink through this systematically:\n1. Understand the core requirements\n2. Consider different approaches\n3. Evaluate trade-offs\n4. Provide your recommended solution",
      [⟨"Chain-of-Thought Added", "Added reasoning framework", "Improves analytical quality"⟩])
  else (t, [])

/-- `enhanceStructure` (optimizer 392-418). -/
def enhanceStructure (t : Str) : Str × List Technique :=
  if hasXMLStructure t then (t, [])
  else
    let r1 := reReplace true [.lit (str "[role]:")] (str "<role>\n") t
    let r2 := reReplace true [.lit (str "[task]:")] (str "</role>\n\n<task>") r1
    let r3 := reReplace true [.lit (str "[output format]:")] (str "</task>\n\n<output_format>") r2
    let r4 := reReplace true [.lit (str "[constraints]:")] (str "</output_format>\n\n<constraints>") r3
    let r5 :=
      if containsSub r4 (str "<constraints>") && !containsSub r4 (str "</constraints>") then
        r4 ++ str "\n</constraints>"
      else r4
    if r5 = t then (r5, [])
    else (r5, [⟨"XML Structure", "Converted to XML format for better parsing",
      "Clearer structure for AI"⟩])

structure Improvements where
  scoreChange : ℚ
  scorePercent : ℤ
  efficiencyChange : ℤ
  tokenChange : ℤ
  tokenPercent : ℤ
  costPerCall : ℚ
  costPer1000 : ℚ
  costPerYear : ℚ
  isBetter : Bool
deriving Repr

/-- `calculateImprovements` (optimizer 423-448); the `toFixed` string
    formatting of the three cost figures is left as their numeric values. -/
def calculateImprovements (old fresh : AnalysisReport) : Improvements :=
  let scoreChange : ℚ := fresh.overallScore.score - old.overallScore.score
  let tokenChange : ℤ := (fresh.tokenCount : ℤ) - (old.tokenCount : ℤ)
  let costPerToken : ℚ := 3 / 1000000
  let costChange : ℚ := (fresh.tokenCount : ℚ) * costPerToken - (old.tokenCount : ℚ) * costPerToken
  { scoreChange := (jsRound (scoreChange * 10) : ℚ) / 10,
    scorePercent :=
      if 0 < old.overallScore.score then jsRound (scoreChange / old.overallScore.score * 100)
      else 0,
    efficiencyChange := jsRound ((fresh.contextEngineering.tokenEfficiency.efficiency : ℚ) -
      (old.contextEngineering.tokenEfficiency.efficiency : ℚ)),
    tokenChange := tokenChange,
    tokenPercent :=
      if 0 < old.tokenCount then jsRound ((tokenChange : ℚ) / (old.tokenCount : ℚ) * 100) else 0,
    costPerCall := |costChange|,
    costPer1000 := |costChange * 1000|,
    costPerYear := |costChange * 1000 * 365|,
    isBetter := if 0 < scoreChange then true else false }

structure OptResult where
  original : Str
  optimized : Str
  techniques : List Technique
  improvements : Improvements
  newAnalysis : AnalysisReport
deriving Repr

/-- The text/technique pipeline of `optimize` (optimizer 19-37): stages 1-2
    at every level, stages 3-5 at standard/advanced, stages 6-8 at advanced.
    The analysis report `a` is the one passed into the call and stashed as
    `this.analysis`; stages read their component flags and altitude from it. -/
def optimizeCore (t : Str) (a : AnalysisReport) (m : Model) (lvl : Level) (opts : Options) :
    Str × List Technique :=
  let (s2, t12) :=
    if lvl = .quick ∨ lvl = .standard ∨ lvl = .advanced then
      let (x, tx) := removeRedundancy t
      (improveClarity x, tx)
    else (t, [])
  let (s5, t345) :=
    if lvl = .standard ∨ lvl = .advanced then
      let (x3, tx3) := addFrameworkStructure a.components.role a.components.task
        a.components.outputFormat a.components.constraints a.contextEngineering.altitude opts s2
      let (x4, tx4) := correctAltitude a.contextEngineering.altitude x3
      let (x5, tx5) := applyModelSpecificRules m x4
      (x5, tx3 ++ tx4 ++ tx5)
    else (s2, [])
  let (s8, t678) :=
    if lvl = .advanced then
      let (x6, tx6) := addExamples a.components.examples s5
      let (x7, tx7) := addChainOfThought x6
      let (x8, tx8) := enhanceStructure x7
      (x8, tx6 ++ tx7 ++ tx8)
    else (s5, [])
  (s8, t12 ++ t345 ++ t678)

/-- `optimize` (optimizer 11-49). -/
def optimize (t : Str) (a : AnalysisReport) (m : Model) (lvl : Level) (opts : Options) :
    OptResult :=
  let (opt, techs) := optimizeCore t a m lvl opts
  let newAnalysis := analyze opt m
  { original := t, optimized := opt, techniques := techs,
    improvements := calculateImprovements a newAnalysis,
    newAnalysis := newAnalysis }

/-- The transient per-call instance state of `PromptOptimizer`
    (`this.originalPrompt`, `this.analysis`, …, `this.techniques`). -/
structure OptState where
  originalPrompt : Str
  analysis : AnalysisReport
  model : Model
  level : Level
  options : Options
  techniques : List Technique

/-- `optimize` as a state transformer on the `PromptOptimizer` object:
    lines 12-17 of the source overwrite every instance field from the call's
    arguments (in particular `this.techniques = []`) before any stage runs,
    and the stages read only those freshly initialized fields, so the body
    is fully determined by the arguments. -/
def optimizeSt (_st : OptState) (t : Str) (a : AnalysisReport) (m : Model) (lvl : Level)
    (opts : Options) : OptResult × OptState :=
  let entry : OptState :=
    { originalPrompt := t, analysis := a, model := m, level := lvl, options := opts,
      techniques := [] }
  let r := optimize entry.originalPrompt entry.analysis entry.model entry.level entry.options
  (r, { entry with techniques := r.techniques })

/- ### String-keyed model dispatch (analyzer.js 346-355, optimizer 249-258)

  `modelAnalyzers[model] || modelAnalyzers.claude` looks `model` up on an
  object literal, which inherits from `Object.prototype`.  A key that is a
  prototype property is truthy, so the `||` fallback does not apply:
  `"__proto__"` yields `Object.prototype` itself — not a function, so
  `analyzer.call(this, text)` throws a `TypeError` — and keys such as
  `"constructor"` or `"toString"` yield inherited functions whose call
  returns a value that is not a fit report at all.  Only keys absent from
  the whole prototype chain fall back to the claude handler. -/

def objectProtoFnProps : List String :=
  ["constructor", "hasOwnProperty", "isPrototypeOf", "propertyIsEnumerable",
   "toLocaleString", "toString", "valueOf",
   "__defineGetter__", "__defineSetter__", "__lookupGetter__", "__lookupSetter__"]

inductive JsDispatch where
  | handler (m : Model)
  | protoFn (prop : String)
  | protoObj
  | absent
deriving DecidableEq, Repr

/-- Property lookup `table[key]` on the three-handler object literal,
    classified by what JS produces. -/
def jsLookupModel (key : String) : JsDispatch :=
  if key = "claude" then .handler .claude
  else if key = "gpt" then .handler .gpt
  else if key = "gemini" then .handler .gemini
  else if key = "__proto__" then .protoObj
  else if key ∈ objectProtoFnProps then .protoFn key
  else .absent

inductive JsFitOutcome where
  | report (r : FitReport)
  | bogus (prop : String)
  | typeError
deriving DecidableEq, Repr

/-- `analyzeModelFit` with its real string key: `.report` when a handler
    (own or fallback) runs, `.bogus` when an inherited `Object.prototype`
    function is called instead, `.typeError` when the looked-up value is
    not callable (`analyzer.call is not a function`). -/
def analyzeModelFitJs (t : Str) (key : String) : JsFitOutcome :=
  match jsLookupModel key with
  | .handler m => .report (analyzeModelFit t m)
  | .absent => .report (analyzeClaudeFit t)
  | .protoFn p => .bogus p
  | .protoObj => .typeError

inductive JsOptOutcome where
  | result (r : Str × List Technique)
  | bogus (prop : String)
  | typeError
deriving DecidableEq, Repr

/-- `applyModelSpecificRules` (`modelRules[this.model] || modelRules.claude`)
    with its real string key, same classification. -/
def applyModelSpecificRulesJs (t : Str) (key : String) : JsOptOutcome :=
  match jsLookupModel key with
  | .handler m => .result (applyModelSpecificRules m t)
  | .absent => .result (applyClaudeRules t)
  | .protoFn p => .bogus p
  | .protoObj => .typeError

/- ### Spec-side definitions and concrete inputs used by the claims -/

/-- The altitude decision rule exactly as the spec words it: "if low-marker
    count > 2 → too-low; else if high-marker count > 2 AND good-marker
    count < 2 → too-high; else → just-right". -/
def specAltitudeRule (low high good : Nat) : Altitude :=
  if low > 2 then .tooLow
  else if high > 2 ∧ good < 2 then .tooHigh
  else .justRight

/-- The text handed to stage `addChainOfThought` in an advanced-level
    `optimize` call: the output of stages 1-5 plus `addExamples`. -/
def stage6bInput (t : Str) (a : AnalysisReport) (m : Model) (opts : Options) : Str :=
  (addExamples a.components.examples
    (applyModelSpecificRules m
      (correctAltitude a.contextEngineering.altitude
        (addFrameworkStructure a.components.role a.components.task
          a.components.outputFormat a.components.constraints
          a.contextEngineering.altitude opts
          (improveClarity (removeRedundancy t).1)).1).1).1).1

/-- Concrete prompt for the chain-of-thought stage counterexample: short
    (52 chars), non-analytical, no chain-of-thought marker, task flag set,
    role/outputFormat/constraints flags missing, altitude just-right. -/
def c2Text : Str := str "Help me craft a landing page headline for my product"

/-- A second prompt whose analysis report agrees with `c2Text`'s on every
    report field the optimizer pipeline reads. -/
def c2TextB : Str := str "Help me name a good gift for my sister"

/-- Concrete input for the `removeRedundancy` re-run counterexample: the two
    sentences differ only by the filler word "very", which is removed after
    the (first-pass) deduplication. -/
def c8Text : Str := str "be very good. be good."

def sentenceCount (s : Str) : Nat := (sentencePieces s).length

/-- Concrete high-signal-overlap counterexamples: every character of
    `[<must>]` is matched by several high-signal pattern families at once,
    so `useful` exceeds `total`. -/
def c3Text : Str := str "[<must>]"

def c1Text : Str := str "[<must>][<must>]"

/- ### Helper lemmas -/

lemma boolNat_le_one (b : Bool) : boolNat b ≤ 1 := by cases b <;> simp [boolNat]

lemma analyzeComponents_presentCount (t : Str) :
    (analyzeComponents t).presentCount =
      boolNat (hasRole t) + boolNat (hasTone t) + boolNat (hasBackground t) +
      boolNat (hasTask t) + boolNat (hasExamples t) + boolNat (hasChainOfThought t) +
      boolNat (hasOutputFormat t) + boolNat (hasConstraints t) + boolNat (hasPrefill t) +
      boolNat (hasXMLStructure t) := rfl

lemma analyzeComponents_missingCount (t : Str) :
    (analyzeComponents t).missingCount = 10 - (analyzeComponents t).presentCount := rfl

lemma analyzeComponents_score_def (t : Str) :
    (analyzeComponents t).score = ((analyzeComponents t).presentCount : ℚ) / 10 * 100 := rfl

lemma presentCount_le_ten (t : Str) : (analyzeComponents t).presentCount ≤ 10 := by
  rw [analyzeComponents_presentCount]
  have h1 := boolNat_le_one (hasRole t)
  have h2 := boolNat_le_one (hasTone t)
  have h3 := boolNat_le_one (hasBackground t)
  have h4 := boolNat_le_one (hasTask t)
  have h5 := boolNat_le_one (hasExamples t)
  have h6 := boolNat_le_one (hasChainOfThought t)
  have h7 := boolNat_le_one (hasOutputFormat t)
  have h8 := boolNat_le_one (hasConstraints t)
  have h9 := boolNat_le_one (hasPrefill t)
  have h10 := boolNat_le_one (hasXMLStructure t)
  omega

lemma components_score_eq (t : Str) :
    (analyzeComponents t).score = ((analyzeComponents t).presentCount : ℚ) * 10 := by
  rw [analyzeComponents_score_def]; ring

lemma analyze_empty {t : Str} (m : Model) (h : (jsTrim t).isEmpty = true) :
    analyze t m = getEmptyAnalysis := by
  simp [analyze, h]

lemma analyze_components {t : Str} (m : Model) (h : (jsTrim t).isEmpty = false) :
    (analyze t m).components = analyzeComponents t := by
  simp [analyze, h]

lemma analyze_ce {t : Str} (m : Model) (h : (jsTrim t).isEmpty = false) :
    (analyze t m).contextEngineering = analyzeContextEngineering t := by
  simp [analyze, h]

lemma analyze_overall {t : Str} (m : Model) (h : (jsTrim t).isEmpty = false) :
    (analyze t m).overallScore = calculateOverallScore t m := by
  simp [analyze, h]

lemma ce_tokenEfficiency (t : Str) :
    (analyzeContextEngineering t).tokenEfficiency = calculateTokenEfficiency t := rfl

lemma jsRound_nonneg {q : ℚ} (h : 0 ≤ q) : 0 ≤ jsRound q :=
  Int.le_floor.mpr (by push_cast; linarith)

lemma jsRound_le_hundred {q : ℚ} (h : q ≤ 100) : jsRound q ≤ 100 := by
  have : jsRound q < 101 := Int.floor_lt.mpr (by push_cast; linarith)
  omega

lemma jsRound_eval {q : ℚ} {z : ℤ} (h1 : (z : ℚ) ≤ q + 1/2) (h2 : q + 1/2 < z + 1) :
    jsRound q = z :=
  Int.floor_eq_iff.mpr ⟨h1, by linarith⟩

lemma jsRoundPosRat_cast (n d : ℕ) (hd : 0 < d) :
    (jsRoundPosRat n d : ℤ) = jsRound ((n : ℚ) / d) := by
  have hd0 : (d : ℚ) ≠ 0 := by positivity
  have h1 : (n : ℚ) / d + 1/2 = ((2 * n + d : ℕ) : ℚ) / ((2 * d : ℕ) : ℚ) := by
    field_simp; ring
  rw [jsRound, h1, Rat.floor_natCast_div_natCast, jsRoundPosRat, Int.natCast_div]

lemma compat_formula_bounds (k : ℕ) :
    0 ≤ max 0 (100 - (k : ℤ) * 15) ∧ max 0 (100 - (k : ℤ) * 15) ≤ 100 := by
  refine ⟨le_max_left _ _, max_le (by norm_num) ?_⟩
  have h : (0 : ℤ) ≤ (k : ℤ) * 15 := by positivity
  linarith

lemma compat_bounds (t : Str) (m : Model) :
    0 ≤ (analyzeModelFit t m).compatibility ∧ (analyzeModelFit t m).compatibility ≤ 100 := by
  cases m <;> exact compat_formula_bounds _

lemma altScore_bounds (a : Altitude) : 0 ≤ altitudeScoreOf a ∧ altitudeScoreOf a ≤ 10 := by
  cases a <;> norm_num [altitudeScoreOf]

lemma calculateOverallScore_score (t : Str) (m : Model) :
    (calculateOverallScore t m).score =
      (jsRound (((analyzeComponents t).score / 10 * (3/10) +
        ((calculateTokenEfficiency t).efficiency : ℚ) / 10 * (1/4) +
        altitudeScoreOf (detectAltitude t) * (1/4) +
        ((analyzeModelFit t m).compatibility : ℚ) / 10 * (1/5)) * 10) : ℚ) / 10 := rfl

/- ### Claim theorems -/

/-- Claim C4: for every input text (including empty/whitespace input) and
    model, the components object of the analysis report satisfies
    `presentCount + missingCount = 10` and `score = presentCount * 10`. -/
theorem components_invariant (t : Str) (m : Model) :
    (analyze t m).components.presentCount + (analyze t m).components.missingCount = 10 ∧
    (analyze t m).components.score = ((analyze t m).components.presentCount : ℚ) * 10 := by
  cases h : (jsTrim t).isEmpty with
  | true =>
    rw [analyze_empty m h]
    exact ⟨rfl, by norm_num [getEmptyAnalysis]⟩
  | false =>
    rw [analyze_components m h]
    refine ⟨?_, components_score_eq t⟩
    rw [analyzeComponents_missingCount]
    have := presentCount_le_ten t
    omega

/-- Claim C5: altitude classification follows exactly the ordered decision
    rule over the three marker counts (low > 2 → too-low; else high > 2 and
    good < 2 → too-high; else just-right), and the concrete text
    `"step 1: gather step 2: sort step 3: output"` — three low-marker
    occurrences, no high or good markers — classifies as too-low. -/
theorem detectAltitude_follows_spec_rule :
    (∀ t : Str, detectAltitude t =
      specAltitudeRule (lowMarkerCount t) (highMarkerCount t) (goodMarkerCount t)) ∧
    (∀ t : Str, 2 < lowMarkerCount t → detectAltitude t = .tooLow) ∧
    lowMarkerCount (str "step 1: gather step 2: sort step 3: output") = 3 ∧
    highMarkerCount (str "step 1: gather step 2: sort step 3: output") = 0 ∧
    goodMarkerCount (str "step 1: gather step 2: sort step 3: output") = 0 :=
  ⟨fun _ => rfl, fun t h => by simp [detectAltitude, h], by decide, by decide, by decide⟩

/-- Claim C5 witness: the three-low-marker text classifies as too-low. -/
theorem detectAltitude_follows_spec_rule_witness :
    detectAltitude (str "step 1: gather step 2: sort step 3: output") = .tooLow :=
  detectAltitude_follows_spec_rule.2.1 (str "step 1: gather step 2: sort step 3: output")
    (by decide)

/-- Claim C10: the technique accumulator (and every other per-call instance
    field) is freshly initialized at each entry of `optimize`, so a second
    call — run from whatever state the first call left behind — returns
    exactly what the same call returns from any other state. -/
theorem optimize_call_isolation (s₁ s₂ : OptState) (t' : Str) (a' : AnalysisReport)
    (m' : Model) (l' : Level) (o' : Options) (t : Str) (a : AnalysisReport) (m : Model)
    (l : Level) (o : Options) :
    (optimizeSt ((optimizeSt s₁ t' a' m' l' o').2) t a m l o).1 =
      (optimizeSt s₂ t a m l o).1 := rfl

/-- Claim C9 (code bug evidence): the model-key dispatches `modelAnalyzers[k]
    || modelAnalyzers.claude` and `modelRules[k] || modelRules.claude` hit
    `Object.prototype` for the key `"__proto__"` (a truthy non-function, so
    `.call` throws a TypeError) and for keys like `"constructor"` (an
    inherited function returning a non-report value); only keys absent from
    the prototype chain actually fall back to the claude handler. -/
theorem modelFit_dispatch_proto_bug :
    analyzeModelFitJs (str "hello") "__proto__" = .typeError ∧
    applyModelSpecificRulesJs (str "hello") "__proto__" = .typeError ∧
    analyzeModelFitJs (str "hello") "constructor" = .bogus "constructor" ∧
    analyzeModelFitJs (str "hello") "mistral" = .report (analyzeClaudeFit (str "hello")) := by
  refine ⟨by decide, by decide, by decide, by decide⟩

/-- Claim C3 (amended): the `efficiency` field is the integer
    `round(useful/total*100)` when `total > 0` and `0` when `total = 0`
    (it is a natural number, hence nonnegative, but it is *not* bounded
    by 100 — see the counterexample). -/
theorem tokenEfficiency_formula (t : Str) (m : Model) :
    ((analyze t m).contextEngineering.tokenEfficiency.efficiency : ℤ) =
      if 0 < (analyze t m).contextEngineering.tokenEfficiency.total then
        jsRound (((analyze t m).contextEngineering.tokenEfficiency.useful : ℚ) /
          ((analyze t m).contextEngineering.tokenEfficiency.total : ℚ) * 100)
      else 0 := by
  cases h : (jsTrim t).isEmpty with
  | true => rw [analyze_empty m h]; simp [getEmptyAnalysis]
  | false =>
    rw [analyze_ce m h, ce_tokenEfficiency]
    have htot : (calculateTokenEfficiency t).total = countTokens t := rfl
    have huse : (calculateTokenEfficiency t).useful = countHighSignalTokens t := rfl
    have heff : (calculateTokenEfficiency t).efficiency =
        if 0 < countTokens t then jsRoundPosRat (100 * countHighSignalTokens t) (countTokens t)
        else 0 := rfl
    rw [htot, huse, heff]
    by_cases hc : 0 < countTokens t
    · rw [if_pos hc, if_pos hc, jsRoundPosRat_cast _ _ hc]
      congr 1
      push_cast
      ring
    · rw [if_neg hc, if_neg hc]
      norm_num

/-- Claim C3 counterexample: on `"[<must>]"` the overlapping high-signal
    families count 18 characters of matches in an 8-character text, so
    `useful = 6 > total = 3` and the efficiency field is 200, outside
    [0, 100]. -/
theorem tokenEfficiency_exceeds_hundred_cex :
    (analyze c3Text .claude).contextEngineering.tokenEfficiency.efficiency = 200 ∧
    100 < (analyze c3Text .claude).contextEngineering.tokenEfficiency.efficiency := by
  refine ⟨by decide, by decide⟩

/-- Claim C8 (amended): the sentence-deduplication step of
    `removeRedundancy` leaves no two case-insensitively equal sentences
    (the list kept after the `seen`-set pass is duplicate-free under
    lower-casing).  The *full* stage does not have this property, because
    filler-word removal runs afterwards — see the counterexample. -/
theorem removeRedundancy_dedup_nodup (t : Str) :
    (((dedupSentences (sentencePieces t) []).1).map lowerStr).Nodup := by
  suffices h : ∀ (l seen : List Str),
      (((dedupSentences l seen).1).map lowerStr).Nodup ∧
      ∀ x ∈ (dedupSentences l seen).1, lowerStr x ∉ seen from
    (h (sentencePieces t) []).1
  intro l
  induction l with
  | nil => intro seen; simp [dedupSentences]
  | cons s rest ih =>
    intro seen
    by_cases h : lowerStr s ∈ seen
    · rcases hur : dedupSentences rest seen with ⟨u, r⟩
      have h1 := (ih seen).1
      have h2 := (ih seen).2
      rw [hur] at h1 h2
      simp only [dedupSentences, if_pos h, hur]
      exact ⟨h1, h2⟩
    · rcases hur : dedupSentences rest (lowerStr s :: seen) with ⟨u, r⟩
      have h1 := (ih (lowerStr s :: seen)).1
      have h2 := (ih (lowerStr s :: seen)).2
      rw [hur] at h1 h2
      simp only [dedupSentences, if_neg h, hur]
      constructor
      · simp only [List.map_cons, List.nodup_cons]
        refine ⟨?_, h1⟩
        intro hmem
        rcases List.mem_map.mp hmem with ⟨x, hx, he⟩
        exact (h2 x hx) (he ▸ List.mem_cons_self _ _)
      · intro x hx
        rcases List.mem_cons.mp hx with rfl | hx'
        · exact h
        · exact fun hs => (h2 x hx') (List.mem_cons_of_mem _ hs)

/-- Claim C8 counterexample: on `"be very good. be good."` one pass of
    `removeRedundancy` yields `"be good. be good."` — two equal sentences
    remain (filler removal ran after deduplication) — and a second pass
    shrinks the sentence count from 2 to 1. -/
theorem removeRedundancy_rerun_cex :
    sentencePieces (removeRedundancy c8Text).1 = [str "be good", str "be good"] ∧
    sentencePieces (removeRedundancy (removeRedundancy c8Text).1).1 = [str "be good"] ∧
    sentenceCount (removeRedundancy (removeRedundancy c8Text).1).1 <
      sentenceCount (removeRedundancy c8Text).1 := by
  refine ⟨by decide, by decide, by decide⟩

/-- Claim C6 (amended): on empty input `optimize` returns without failing at
    every level; at level quick the output is exactly the empty string, but
    at standard/advanced the framework stage *does* fire — the canonical
    empty report carries no component flags, every flag reads as missing,
    and bracketed section headers are inserted. -/
theorem optimize_empty_behaviour :
    (∀ (m : Model) (opts : Options),
      (optimize [] getEmptyAnalysis m .quick opts).optimized = []) ∧
    containsSub (optimize [] getEmptyAnalysis .claude .standard defaultOptions).optimized
      (str "[ROLE]") = true ∧
    (optimize [] getEmptyAnalysis .claude .advanced defaultOptions).optimized ≠ [] :=
  ⟨fun _ _ => rfl, by decide, by decide⟩

/-- Claim C6 counterexample: at level standard on empty input (with the
    canonical empty report) the optimized output is not whitespace and
    contains the bracketed `[ROLE]` header — the framework stage fired. -/
theorem optimize_empty_standard_cex :
    containsSub (optimize [] getEmptyAnalysis .claude .standard defaultOptions).optimized
      (str "[ROLE]") = true ∧
    (jsTrim (optimize [] getEmptyAnalysis .claude .standard defaultOptions).optimized).isEmpty
      = false := by
  refine ⟨by decide, by decide⟩

/-- Claim C1 (amended): the overall score is always nonnegative, and it is
    at most 10 *provided* the token-efficiency sub-score is at most 100.
    The proviso is real: overlapping high-signal matches can push the
    efficiency past 100 and the score past 10 — see the counterexample. -/
theorem overallScore_bounds (t : Str) (m : Model) :
    0 ≤ (analyze t m).overallScore.score ∧
    ((analyze t m).contextEngineering.tokenEfficiency.efficiency ≤ 100 →
      (analyze t m).overallScore.score ≤ 10) := by
  cases h : (jsTrim t).isEmpty with
  | true =>
    rw [analyze_empty m h]
    exact ⟨by norm_num [getEmptyAnalysis], fun _ => by norm_num [getEmptyAnalysis]⟩
  | false =>
    rw [analyze_overall m h, analyze_ce m h, ce_tokenEfficiency, calculateOverallScore_score,
      components_score_eq]
    have hp10 : ((analyzeComponents t).presentCount : ℚ) ≤ 10 := by
      exact_mod_cast presentCount_le_ten t
    have hpe : (0 : ℚ) ≤ ((analyzeComponents t).presentCount : ℚ) := by positivity
    have hee : (0 : ℚ) ≤ ((calculateTokenEfficiency t).efficiency : ℚ) := by positivity
    have hab := altScore_bounds (detectAltitude t)
    have hcb := compat_bounds t m
    have hc0 : (0 : ℚ) ≤ ((analyzeModelFit t m).compatibility : ℚ) := by exact_mod_cast hcb.1
    have hc100 : ((analyzeModelFit t m).compatibility : ℚ) ≤ 100 := by exact_mod_cast hcb.2
    constructor
    · apply div_nonneg _ (by norm_num : (0 : ℚ) ≤ 10)
      have hw : (0 : ℚ) ≤ (((analyzeComponents t).presentCount : ℚ) * 10 / 10 * (3/10) +
          ((calculateTokenEfficiency t).efficiency : ℚ) / 10 * (1/4) +
          altitudeScoreOf (detectAltitude t) * (1/4) +
          ((analyzeModelFit t m).compatibility : ℚ) / 10 * (1/5)) * 10 := by
        have h1 := hab.1
        nlinarith
      exact_mod_cast jsRound_nonneg hw
    · intro hle
      have he100 : ((calculateTokenEfficiency t).efficiency : ℚ) ≤ 100 := by exact_mod_cast hle
      have hw : (((analyzeComponents t).presentCount : ℚ) * 10 / 10 * (3/10) +
          ((calculateTokenEfficiency t).efficiency : ℚ) / 10 * (1/4) +
          altitudeScoreOf (detectAltitude t) * (1/4) +
          ((analyzeModelFit t m).compatibility : ℚ) / 10 * (1/5)) * 10 ≤ 100 := by
        have h2 := hab.2
        nlinarith
      have hr := jsRound_le_hundred hw
      rw [div_le_iff₀ (by norm_num : (0 : ℚ) < 10)]
      have : ((jsRound ((((analyzeComponents t).presentCount : ℚ) * 10 / 10 * (3/10) +
          ((calculateTokenEfficiency t).efficiency : ℚ) / 10 * (1/4) +
          altitudeScoreOf (detectAltitude t) * (1/4) +
          ((analyzeModelFit t m).compatibility : ℚ) / 10 * (1/5)) * 10) : ℤ) : ℚ) ≤ 100 := by
        exact_mod_cast hr
      linarith

/-- Claim C1 witness: on the concrete prompt `"hi"` (whose efficiency is 0)
    the score lies in [0, 10]. -/
theorem overallScore_bounds_witness :
    0 ≤ (analyze (str "hi") .claude).overallScore.score ∧
    (analyze (str "hi") .claude).overallScore.score ≤ 10 :=
  ⟨(overallScore_bounds (str "hi") .claude).1,
   (overallScore_bounds (str "hi") .claude).2 (by decide)⟩

/-- Claim C1 counterexample: on `"[<must>][<must>]"` the token-efficiency
    sub-score is 27.5 (efficiency 275), so the weighted sum is 11.675 and
    the reported overall score is 11.7 — outside [0, 10]. -/
theorem overallScore_exceeds_ten_cex :
    10 < (analyze c1Text .claude).overallScore.score := by
  rw [analyze_overall .claude (by decide), calculateOverallScore_score, components_score_eq]
  have h1 : (analyzeComponents c1Text).presentCount = 1 := by decide
  have h2 : (calculateTokenEfficiency c1Text).efficiency = 275 := by decide
  have h3 : detectAltitude c1Text = .justRight := by decide
  have h4 : (analyzeModelFit c1Text .claude).compatibility = 100 := by decide
  rw [h1, h2, h3, h4]
  have h5 : jsRound ((((1 : ℕ) : ℚ) * 10 / 10 * (3/10) + ((275 : ℕ) : ℚ) / 10 * (1/4) +
      altitudeScoreOf .justRight * (1/4) + (((100 : ℤ)) : ℚ) / 10 * (1/5)) * 10) = 117 :=
    jsRound_eval (by norm_num [altitudeScoreOf]) (by norm_num [altitudeScoreOf])
  rw [h5]
  norm_num

/- ### Bracket-count lemmas for the quick level -/

lemma count_drop_le (c : Char) (n : Nat) (s : Str) :
    List.count c (s.drop n) ≤ List.count c s :=
  (List.drop_sublist n s).count_le c

lemma scanReplace_count_le (c : Char) (ci : Bool) (p : Pat) (rep : Str)
    (hrep : List.count c rep = 0) :
    ∀ (f : Nat) (prev : Option Char) (s : Str),
      List.count c (scanReplace ci p rep f prev s) ≤ List.count c s := by
  intro f
  induction f with
  | zero => intro prev s; simp [scanReplace]
  | succ f ih =>
    intro prev s
    cases s with
    | nil =>
      simp only [scanReplace]
      split <;> simp [hrep]
    | cons c0 rest =>
      simp only [scanReplace]
      cases hm : matchHere ci p prev (c0 :: rest) with
      | none =>
        simp only [List.count_cons]
        have := ih (some c0) rest
        omega
      | some n =>
        cases n with
        | zero =>
          simp only [List.count_append, hrep, List.count_cons]
          have := ih (some c0) rest
          omega
        | succ k =>
          simp only [List.count_append, hrep, List.count_cons]
          have h1 := ih (prevAfter prev (c0 :: rest) (k + 1)) (rest.drop k)
          have h2 := count_drop_le c k rest
          omega

lemma jsTrim_count_le (c : Char) (s : Str) : List.count c (jsTrim s) ≤ List.count c s := by
  unfold jsTrim
  calc List.count c ((s.dropWhile isWsChar).reverse.dropWhile isWsChar).reverse
      = List.count c ((s.dropWhile isWsChar).reverse.dropWhile isWsChar) :=
        List.count_reverse c _
    _ ≤ List.count c (s.dropWhile isWsChar).reverse :=
        (List.dropWhile_sublist _).count_le c
    _ = List.count c (s.dropWhile isWsChar) := List.count_reverse c _
    _ ≤ List.count c s := (List.dropWhile_sublist _).count_le c

lemma jsSplitAux_count (c : Char) (p : Char → Bool) (hp : p c = false) :
    ∀ (s acc : Str),
      ((jsSplitAux p s acc).map (List.count c)).sum = List.count c acc + List.count c s := by
  intro s
  induction s with
  | nil => intro acc; simp [jsSplitAux, List.count_reverse]
  | cons c0 rest ih =>
    intro acc
    by_cases h : p c0 = true
    · have hne : (c0 == c) = false := by
        simp only [beq_eq_false_iff_ne, ne_eq]
        intro e
        rw [e] at h
        rw [h] at hp
        exact Bool.noConfusion hp
      simp only [jsSplitAux, h, if_true, List.map_cons, List.sum_cons, List.count_reverse]
      rw [ih []]
      simp [List.count_cons, hne]
    · have h' : p c0 = false := by
        cases hc : p c0
        · rfl
        · exact absurd hc h
      simp only [jsSplitAux, h', Bool.false_eq_true, if_false]
      rw [ih (c0 :: acc)]
      simp only [List.count_cons]
      by_cases hc : (c0 == c) = true <;> simp [hc] <;> try omega

lemma sentencePieces_count (c : Char) (hsep : sentSepChar c = false) (t : Str) :
    ((sentencePieces t).map (List.count c)).sum ≤ List.count c t := by
  unfold sentencePieces
  have h0 : ((jsSplit sentSepChar t).map (List.count c)).sum = List.count c t := by
    unfold jsSplit
    rw [jsSplitAux_count c sentSepChar hsep t []]
    simp
  calc ((((jsSplit sentSepChar t).map jsTrim).filter (fun s => !s.isEmpty)).map
        (List.count c)).sum
      ≤ (((jsSplit sentSepChar t).map jsTrim).map (List.count c)).sum :=
        ((List.filter_sublist _).map (List.count c)).sum_le_sum (fun a _ => Nat.zero_le a)
    _ ≤ ((jsSplit sentSepChar t).map (List.count c)).sum := by
        rw [List.map_map]
        exact List.sum_le_sum (fun s _ => jsTrim_count_le c s)
    _ = List.count c t := h0

lemma dedup_sublist : ∀ (l seen : List Str), List.Sublist (dedupSentences l seen).1 l := by
  intro l
  induction l with
  | nil => intro seen; simp [dedupSentences]
  | cons s rest ih =>
    intro seen
    by_cases h : lowerStr s ∈ seen
    · rcases hur : dedupSentences rest seen with ⟨u, r⟩
      simp only [dedupSentences, if_pos h, hur]
      have hs := ih seen
      rw [hur] at hs
      exact hs.cons s
    · rcases hur : dedupSentences rest (lowerStr s :: seen) with ⟨u, r⟩
      simp only [dedupSentences, if_neg h, hur]
      have hs := ih (lowerStr s :: seen)
      rw [hur] at hs
      exact hs.cons₂ s

lemma joinDotSpace_count (c : Char) (hdot : c ≠ '.') (hsp : c ≠ ' ') :
    ∀ l : List Str, List.count c (joinDotSpace l) ≤ (l.map (List.count c)).sum := by
  intro l
  induction l with
  | nil => simp [joinDotSpace]
  | cons x xs ih =>
    cases xs with
    | nil => simp [joinDotSpace]
    | cons y ys =>
      simp only [joinDotSpace, List.count_append, List.count_cons, List.map_cons,
        List.sum_cons] at ih ⊢
      have hd : ('.' == c) = false := by
        simp only [beq_eq_false_iff_ne, ne_eq]
        exact fun e => hdot e.symm
      have hs : (' ' == c) = false := by
        simp only [beq_eq_false_iff_ne, ne_eq]
        exact fun e => hsp e.symm
      simp only [hd, hs, Bool.false_eq_true, if_false]
      omega

lemma dedupedText_count_le (c : Char) (hsep : sentSepChar c = false) (hsp : c ≠ ' ')
    (t : Str) : List.count c (dedupedText t) ≤ List.count c t := by
  have hdot : c ≠ '.' := by
    intro e
    rw [e] at hsep
    simp [sentSepChar] at hsep
  unfold dedupedText
  split
  · have h1 := joinDotSpace_count c hdot hsp (dedupSentences (sentencePieces t) []).1
    have h2 : (((dedupSentences (sentencePieces t) []).1).map (List.count c)).sum ≤
        ((sentencePieces t).map (List.count c)).sum :=
      ((dedup_sublist (sentencePieces t) []).map (List.count c)).sum_le_sum
        (fun a _ => Nat.zero_le a)
    have h3 := sentencePieces_count c hsep t
    have hd : ('.' == c) = false := by
      simp only [beq_eq_false_iff_ne, ne_eq]
      exact fun e => hdot e.symm
    simp only [List.count_append, List.count_cons, List.count_nil, hd, Bool.false_eq_true,
      if_false]
    omega
  · exact le_refl _

lemma removeRedundancy_fst (t : Str) :
    (removeRedundancy t).1 =
      if 0 < reCount true fillerPat (dedupedText t) then
        reReplace true fillerPat [] (dedupedText t)
      else dedupedText t := rfl

lemma removeRedundancy_count_le (c : Char) (hsep : sentSepChar c = false) (hsp : c ≠ ' ')
    (t : Str) : List.count c (removeRedundancy t).1 ≤ List.count c t := by
  rw [removeRedundancy_fst]
  split
  · exact (scanReplace_count_le c true fillerPat [] rfl _ none _).trans
      (dedupedText_count_le c hsep hsp t)
  · exact dedupedText_count_le c hsep hsp t

lemma improveClarity_count_le (c : Char) (hrep : List.count c (str " and ") = 0) (s : Str) :
    List.count c (improveClarity s) ≤ List.count c s :=
  scanReplace_count_le c false _ (str " and ") hrep _ none s

/-- Claim C7: at level quick only the redundancy-removal and clarity stages
    run — the output is exactly `improveClarity (removeRedundancy t)` — and
    neither stage adds bracketed sections: the number of `[` characters in
    the output never exceeds the number in the input, so no `[ROLE]`-style
    header can appear that was not already present. -/
theorem optimize_quick_no_bracket_insertion (t : Str) (a : AnalysisReport) (m : Model)
    (opts : Options) :
    (optimize t a m .quick opts).optimized = improveClarity (removeRedundancy t).1 ∧
    List.count '[' (optimize t a m .quick opts).optimized ≤ List.count '[' t := by
  refine ⟨rfl, ?_⟩
  show List.count '[' (improveClarity (removeRedundancy t).1) ≤ List.count '[' t
  exact (improveClarity_count_le '[' rfl _).trans
    (removeRedundancy_count_le '[' rfl (by decide) t)

/-- Claim C2 (amended): the optimizer reads the analysis report only through
    the original report passed in at the start of the call — specifically
    through the role/task/outputFormat/constraints/examples flags and the
    altitude; it never recomputes them mid-pipeline.  Two reports agreeing
    on those six fields produce identical rewritten text and technique
    lists.  (Several stage-5/6 firing decisions additionally consult the
    *current*, already-modified text — see the counterexample.) -/
theorem optimize_report_dependence (t : Str) (m : Model) (lvl : Level) (opts : Options)
    (r₁ r₂ : AnalysisReport)
    (hrole : r₁.components.role = r₂.components.role)
    (htask : r₁.components.task = r₂.components.task)
    (hout : r₁.components.outputFormat = r₂.components.outputFormat)
    (hcons : r₁.components.constraints = r₂.components.constraints)
    (hex : r₁.components.examples = r₂.components.examples)
    (halt : r₁.contextEngineering.altitude = r₂.contextEngineering.altitude) :
    (optimize t r₁ m lvl opts).optimized = (optimize t r₂ m lvl opts).optimized ∧
    (optimize t r₁ m lvl opts).techniques = (optimize t r₂ m lvl opts).techniques := by
  have hcore : optimizeCore t r₁ m lvl opts = optimizeCore t r₂ m lvl opts := by
    unfold optimizeCore
    rw [hrole, htask, hout, hcons, hex, halt]
  constructor
  · show (optimizeCore t r₁ m lvl opts).1 = (optimizeCore t r₂ m lvl opts).1
    rw [hcore]
  · show (optimizeCore t r₁ m lvl opts).2 = (optimizeCore t r₂ m lvl opts).2
    rw [hcore]

/-- Claim C2 witness: `c2Text` and `c2TextB` are different prompts whose
    reports agree on the six fields the pipeline reads, so optimizing
    `c2Text` against either report gives the same output and techniques. -/
theorem optimize_report_dependence_witness :
    (optimize c2Text (analyze c2Text .claude) .claude .advanced defaultOptions).optimized =
      (optimize c2Text (analyze c2TextB .claude) .claude .advanced defaultOptions).optimized ∧
    (optimize c2Text (analyze c2Text .claude) .claude .advanced defaultOptions).techniques =
      (optimize c2Text (analyze c2TextB .claude) .claude .advanced defaultOptions).techniques :=
  optimize_report_dependence c2Text .claude .advanced defaultOptions
    (analyze c2Text .claude) (analyze c2TextB .claude)
    (by decide) (by decide) (by decide) (by decide) (by decide) (by decide)

/-- Claim C2 counterexample: in an advanced-level call on `c2Text` the
    chain-of-thought stage fires on the text as modified by the earlier
    stages (length 506 > 300), although its own decision predicate is false
    on the original text (52 chars, not analytical) — the decision is not
    determined by the original analysis report alone. -/
theorem cot_stage_reads_modified_text_cex :
    cotFires (stage6bInput c2Text (analyze c2Text .claude) .claude defaultOptions) = true ∧
    cotFires c2Text = false ∧
    containsSub (optimize c2Text (analyze c2Text .claude) .claude .advanced
      defaultOptions).optimized (str "Think through this systematically") = true := by
  refine ⟨by decide, by decide, by decide⟩

/- ### Sanity checks of the regex matcher and analyzer on concrete inputs -/

example : reTest true [.lit (str "abc")] (str "xxABCx") = true := by decide
example : reCount true [.lit (str "step "), .cls .digit 1 none false, .lit (str ":")]
    (str "step 1: a step 22: b") = 2 := by decide
example : reSumLens false [.lit (str "["), .cls .notRBrack 1 none false, .lit (str "]")]
    (str "[<must>][<must>]") = 16 := by decide
example : reReplace true [.wordB, .alts [str "very", str "really"], .wordB,
    .cls .ws 0 none false] [] (str "be very good. be good.") = str "be good. be good." := by decide
example : reTest true [.lit (str "be professional"),
    .notAhead [.lit (str " "), .cls .dot 5 none false]] (str "be professional today") = false := by
  decide
example : reTest true [.lit (str "be professional"),
    .notAhead [.lit (str " "), .cls .dot 5 none false]] (str "be professional") = true := by decide
example : detectAltitude (str "step 1: gather step 2: sort step 3: output") = .tooLow := by decide
example : (calculateTokenEfficiency (str "[<must>]")).efficiency = 200 := by decide
example : (calculateTokenEfficiency (str "[<must>][<must>]")).efficiency = 275 := by decide
example : (analyzeComponents (str "[<must>][<must>]")).presentCount = 1 := by decide
example : (analyzeModelFit (str "[<must>][<must>]") .claude).compatibility = 100 := by decide
example : countTokens (str "[<must>][<must>]") = 4 := by decide
